import Mathlib

/-
Verification of the file-upload ingestion pipeline of the Ai-Data-Analyst
frontend (src/frontend/hooks/useFileUpload.ts, with the upload-state slice of
src/frontend/stores/useDataStore.ts).

The TypeScript code is shallowly embedded: JavaScript runtime values that can
occur in a parsed row are modelled by the inductive type JSValue, the string
and number coercions used by the code are modelled as explicit functions, and
the stateful upload routine is modelled as a pure transition on an explicit
store state, parameterised by the outcome of the (asynchronous) parse step.
-/

namespace AiDataAnalyst

/-- JavaScript runtime values occurring in a parsed row: null, undefined,
booleans, numbers and strings.  Numbers are modelled by the integer-valued
JavaScript numbers that the CSV/Excel parsers produce for integer fields;
values carrying a decimal point reach the pipeline in string form. -/
inductive JSValue where
  | jnull
  | jundef
  | jbool (b : Bool)
  | jnum (n : Int)
  | jstr (s : String)
deriving DecidableEq, Repr

/-- JavaScript String(v) coercion for the modelled values.  String(n) of an
integer-valued number prints without a decimal point, as in JavaScript. -/
def jsToString : JSValue → String
  | JSValue.jnull => "null"
  | JSValue.jundef => "undefined"
  | JSValue.jbool true => "true"
  | JSValue.jbool false => "false"
  | JSValue.jnum n => toString n
  | JSValue.jstr s => s

/-- The filter used throughout useFileUpload.ts:
v !== null && v !== undefined && v !== "" (strict equality, so only the
string value "" is excluded, not other falsy values). -/
def isPresent : JSValue → Bool
  | JSValue.jnull => false
  | JSValue.jundef => false
  | JSValue.jstr s => !(s = "")
  | _ => true

/-- Boolean test of detectColumnType:
typeof v === "boolean" || v === "true" || v === "false" || v === "0" ||
v === "1".  The string comparisons are strict, so the numbers 0 and 1 do not
qualify. -/
def isBooleanLike : JSValue → Bool
  | JSValue.jbool _ => true
  | JSValue.jstr s => s = "true" || s = "false" || s = "0" || s = "1"
  | _ => false

/-- Characters trimmed by the JavaScript Number() coercion before parsing. -/
def jsWhitespace (c : Char) : Bool :=
  c = ' ' || c = '\t' || c = '\n' || c = '\r'

/-- Trim leading and trailing whitespace of a character list. -/
def trimWs (cs : List Char) : List Char :=
  ((cs.dropWhile jsWhitespace).reverse.dropWhile jsWhitespace).reverse

/-- Drop one optional leading sign. -/
def dropSign : List Char → List Char
  | '+' :: cs => cs
  | '-' :: cs => cs
  | cs => cs

/-- Unsigned decimal literal: digits, optionally followed by "." and further
digits, where at least one digit is present on some side of the dot. -/
def numericBody (cs : List Char) : Bool :=
  let intPart := cs.takeWhile Char.isDigit
  let rest := cs.dropWhile Char.isDigit
  match rest with
  | [] => !intPart.isEmpty
  | '.' :: frac => (!intPart.isEmpty || !frac.isEmpty) && frac.all Char.isDigit
  | _ => false

/-- Model of !isNaN(Number(s)) for a string: after trimming, the empty string
coerces to 0, otherwise an optionally signed decimal literal is required.
Hexadecimal, exponent and Infinity forms of Number() are not modelled; no
value in this development relies on them. -/
def isNumericString (s : String) : Bool :=
  let t := trimWs s.data
  t.isEmpty || numericBody (dropSign t)

/-- Model of the numeric test of detectColumnType, !isNaN(Number(v)):
Number(null) = 0, Number(undefined) = NaN, Number(bool) is 0 or 1, a number
is itself, and strings go through the literal parser. -/
def isNumericJS : JSValue → Bool
  | JSValue.jnull => true
  | JSValue.jundef => false
  | JSValue.jbool _ => true
  | JSValue.jnum _ => true
  | JSValue.jstr s => isNumericString s

/-- Left alternative of the date regex /^\d{4}-\d{2}-\d{2}/ : the first ten
characters are four digits, a dash, two digits, a dash and two digits. -/
def matchesISODate : List Char → Bool
  | a :: b :: c :: d :: '-' :: e :: f :: '-' :: g :: h :: _ =>
    a.isDigit && b.isDigit && c.isDigit && d.isDigit &&
    e.isDigit && f.isDigit && g.isDigit && h.isDigit
  | _ => false

/-- Right alternative of the date regex, ^\d{2}\/\d{2}\/\d{4} as a string
prefix. -/
def matchesUSDate : List Char → Bool
  | a :: b :: '/' :: c :: d :: '/' :: e :: f :: g :: h :: _ =>
    a.isDigit && b.isDigit && c.isDigit && d.isDigit &&
    e.isDigit && f.isDigit && g.isDigit && h.isDigit
  | _ => false

/-- datePattern.test(String(v)) for the regex
/^\d{4}-\d{2}-\d{2}|^\d{2}\/\d{2}\/\d{4}/ of useFileUpload.ts. -/
def matchesDatePattern (s : String) : Bool :=
  matchesISODate s.data || matchesUSDate s.data

/-- String(v).includes(c) for a one-character needle. -/
def strHasChar (s : String) (c : Char) : Bool :=
  s.data.contains c

/-- The column types produced by the pipeline (types/index.ts ColumnType;
the unused "number" alternative is kept for completeness). -/
inductive ColumnType where
  | string
  | number
  | integer
  | float
  | boolean
  | date
  | datetime
  | category
deriving DecidableEq, Repr

/-- detectColumnType of useFileUpload.ts.  The local consts of the source
(nonNullValues, booleanValues, numericValues, dateValues, uniqueValues) are
inlined; they are pure.  The comparison d > n * 0.8 on JavaScript doubles is
rendered as 4 * n < 5 * d: for natural n and d the two agree, since the
rounding error of the double 0.8 can move n * 0.8 across the integer d only
when 4n/5 = d exactly, and then both comparisons are false.  Likewise
u < n * 0.5 is rendered as 2 * u < n (0.5 is exact in binary).  The source's
Set size over string coercions is the length of List.dedup. -/
def detectColumnType (values : List JSValue) : ColumnType :=
  if (values.filter isPresent).length = 0 then ColumnType.string
  else if ((values.filter isPresent).filter isBooleanLike).length =
      (values.filter isPresent).length then ColumnType.boolean
  else if ((values.filter isPresent).filter isNumericJS).length =
      (values.filter isPresent).length then
    if ((values.filter isPresent).filter isNumericJS).any
        (fun v => strHasChar (jsToString v) '.') then ColumnType.float
    else ColumnType.integer
  else if 4 * (values.filter isPresent).length <
      5 * ((values.filter isPresent).filter
        (fun v => matchesDatePattern (jsToString v))).length then
    if (values.filter isPresent).any (fun v => strHasChar (jsToString v) ':')
      then ColumnType.datetime
    else ColumnType.date
  else if 2 * ((values.filter isPresent).map jsToString).dedup.length <
        (values.filter isPresent).length
      ∧ ((values.filter isPresent).map jsToString).dedup.length < 20 then
    ColumnType.category
  else ColumnType.string

/-- Auxiliary: a list with a member failing the predicate keeps strictly
fewer elements under filter. -/
lemma filter_length_lt_of_mem_not {α : Type} {p : α → Bool} :
    ∀ {l : List α}, (∃ a ∈ l, p a = false) → (l.filter p).length < l.length := by
  intro l h
  induction l with
  | nil =>
    obtain ⟨a, ha, _⟩ := h
    cases ha
  | cons b t ih =>
    obtain ⟨a, ha, hpa⟩ := h
    rcases List.mem_cons.mp ha with heq | hat
    · subst heq
      rw [List.filter_cons, hpa]
      exact Nat.lt_succ_of_le (List.length_filter_le p t)
    · rw [List.filter_cons]
      cases hpb : p b with
      | true =>
        simpa using Nat.succ_lt_succ (ih ⟨a, hat, hpa⟩)
      | false =>
        simpa using Nat.lt_succ_of_le (Nat.le_of_lt (ih ⟨a, hat, hpa⟩))

/-- Auxiliary: the boolean-rule (or any filter-all) test of the source,
`filtered.length === all.length`, fails when some member fails the predicate. -/
lemma filter_length_ne_of_mem_not {α : Type} {p : α → Bool} {l : List α}
    (h : ∃ a ∈ l, p a = false) : ¬((l.filter p).length = l.length) :=
  Nat.ne_of_lt (filter_length_lt_of_mem_not h)

/-- Auxiliary: when every member satisfies the predicate the filter keeps the
whole list, so the length test of the source succeeds. -/
lemma filter_length_eq_of_all {α : Type} {p : α → Bool} {l : List α}
    (h : ∀ a ∈ l, p a = true) : (l.filter p).length = l.length := by
  rw [List.filter_eq_self.mpr h]

/-- Auxiliary: a nonempty list has nonzero length. -/
lemma length_ne_zero_of_ne_nil {α : Type} {l : List α} (h : l ≠ []) :
    ¬(l.length = 0) :=
  fun hc => h (List.length_eq_zero.mp hc)

/-- C3: a column whose non-null values are all literal booleans or one of the
strings "true", "false", "0", "1" is classified boolean, never integer: the
boolean rule precedes every later rule of detectColumnType. -/
theorem detectColumnType_boolean_priority (values : List JSValue)
    (h0 : values.filter isPresent ≠ [])
    (hb : ∀ v ∈ values.filter isPresent, isBooleanLike v = true) :
    detectColumnType values = ColumnType.boolean ∧
    detectColumnType values ≠ ColumnType.integer := by
  have hne := length_ne_zero_of_ne_nil h0
  have hlen := filter_length_eq_of_all hb
  unfold detectColumnType
  rw [if_neg hne, if_pos hlen]
  exact ⟨rfl, by decide⟩

/-- Witness for C3: the all-flag column ["0", "1", true] is boolean. -/
theorem detectColumnType_boolean_priority_witness :
    detectColumnType [JSValue.jstr "0", JSValue.jstr "1", JSValue.jbool true] =
      ColumnType.boolean ∧
    detectColumnType [JSValue.jstr "0", JSValue.jstr "1", JSValue.jbool true] ≠
      ColumnType.integer :=
  detectColumnType_boolean_priority _ (by decide) (by decide)

/-- C10: a column whose values are all null, undefined or the empty string is
classified string by the first branch of detectColumnType. -/
theorem detectColumnType_all_missing_string (values : List JSValue)
    (h : values.filter isPresent = []) :
    detectColumnType values = ColumnType.string := by
  have hz : (values.filter isPresent).length = 0 := by rw [h]; rfl
  unfold detectColumnType
  rw [if_pos hz]

/-- Witness for C10: a column of one null, one undefined and one empty string
is classified string. -/
theorem detectColumnType_all_missing_string_witness :
    detectColumnType [JSValue.jnull, JSValue.jundef, JSValue.jstr ""] =
      ColumnType.string :=
  detectColumnType_all_missing_string
    [JSValue.jnull, JSValue.jundef, JSValue.jstr ""] (by decide)

/-- C4: when the boolean rule fails and every non-null value coerces to a
number, the column is float when some value's string form shows a decimal
point and integer when none does. -/
theorem detectColumnType_numeric_split (values : List JSValue)
    (h0 : values.filter isPresent ≠ [])
    (hb : ∃ v ∈ values.filter isPresent, isBooleanLike v = false)
    (hn : ∀ v ∈ values.filter isPresent, isNumericJS v = true) :
    ((values.filter isPresent).any
        (fun v => strHasChar (jsToString v) '.') = true →
      detectColumnType values = ColumnType.float) ∧
    ((values.filter isPresent).any
        (fun v => strHasChar (jsToString v) '.') = false →
      detectColumnType values = ColumnType.integer) := by
  have hne := length_ne_zero_of_ne_nil h0
  have hbne := filter_length_ne_of_mem_not hb
  have hfil : (values.filter isPresent).filter isNumericJS =
      values.filter isPresent := List.filter_eq_self.mpr hn
  have hnum := filter_length_eq_of_all hn
  unfold detectColumnType
  rw [if_neg hne, if_neg hbne, if_pos hnum, hfil]
  constructor
  · intro hd
    rw [if_pos hd]
  · intro hd
    rw [if_neg (by simp [hd])]

/-- Witness for C4: a decimal-pointed column is float and an all-integer
column is integer. -/
theorem detectColumnType_numeric_split_witness :
    detectColumnType [JSValue.jstr "1.5", JSValue.jnum 2] = ColumnType.float ∧
    detectColumnType [JSValue.jnum 30, JSValue.jnull, JSValue.jnum 25] =
      ColumnType.integer :=
  ⟨(detectColumnType_numeric_split _ (by decide) (by decide) (by decide)).1
      (by decide),
   (detectColumnType_numeric_split _ (by decide) (by decide) (by decide)).2
      (by decide)⟩

/-- C5: when the boolean, numeric and date rules all fail, a column whose
distinct string-coerced non-null value count is below half the non-null count
and below 20 is classified category. -/
theorem detectColumnType_category_rule (values : List JSValue)
    (h0 : values.filter isPresent ≠ [])
    (hb : ∃ v ∈ values.filter isPresent, isBooleanLike v = false)
    (hn : ∃ v ∈ values.filter isPresent, isNumericJS v = false)
    (hd : 5 * ((values.filter isPresent).filter
        (fun v => matchesDatePattern (jsToString v))).length ≤
      4 * (values.filter isPresent).length)
    (hu1 : 2 * ((values.filter isPresent).map jsToString).dedup.length <
      (values.filter isPresent).length)
    (hu2 : ((values.filter isPresent).map jsToString).dedup.length < 20) :
    detectColumnType values = ColumnType.category := by
  have hne := length_ne_zero_of_ne_nil h0
  have hbne := filter_length_ne_of_mem_not hb
  have hnne := filter_length_ne_of_mem_not hn
  unfold detectColumnType
  rw [if_neg hne, if_neg hbne, if_neg hnne, if_neg (Nat.not_lt.mpr hd),
    if_pos ⟨hu1, hu2⟩]

/-- Witness for C5: twelve non-null non-numeric values over five distinct
strings are classified category. -/
theorem detectColumnType_category_rule_witness :
    detectColumnType
      [JSValue.jstr "a", JSValue.jstr "a", JSValue.jstr "a", JSValue.jstr "b",
       JSValue.jstr "b", JSValue.jstr "b", JSValue.jstr "c", JSValue.jstr "c",
       JSValue.jstr "d", JSValue.jstr "d", JSValue.jstr "e", JSValue.jstr "e"] =
      ColumnType.category :=
  detectColumnType_category_rule _ (by decide) (by decide) (by decide)
    (by decide) (by decide) (by decide)

/-- The column refuting C1: five of six non-null values (more than 80%) match
the date regex and none of the matching values contains a colon, yet the
colon inside the non-matching value "x:y" makes the code answer datetime. -/
def dateColonColumn : List JSValue :=
  [JSValue.jstr "2020-01-01", JSValue.jstr "2020-01-02",
   JSValue.jstr "2020-01-03", JSValue.jstr "2020-01-04",
   JSValue.jstr "2020-01-05", JSValue.jstr "x:y"]

/-- Counterexample to C1 as stated: on dateColonColumn no regex-matching
value contains a colon, so the claim requires the answer date, but
detectColumnType answers datetime because the colon test runs over all
non-null values rather than over the matching ones. -/
theorem detectColumnType_datetime_colon_cex :
    detectColumnType dateColonColumn = ColumnType.datetime ∧
    ((dateColonColumn.filter isPresent).filter
        (fun v => matchesDatePattern (jsToString v))).all
      (fun v => !(strHasChar (jsToString v) ':')) = true ∧
    ColumnType.datetime ≠ ColumnType.date := by decide

/-- C1 amended: under the boolean-rule, numeric-rule and 80%-date-threshold
hypotheses, detectColumnType answers datetime exactly when some non-null
value (matching the regex or not) contains a colon, and date otherwise. -/
theorem detectColumnType_date_branch_amended (values : List JSValue)
    (h0 : values.filter isPresent ≠ [])
    (hb : ∃ v ∈ values.filter isPresent, isBooleanLike v = false)
    (hn : ∃ v ∈ values.filter isPresent, isNumericJS v = false)
    (hd : 4 * (values.filter isPresent).length <
      5 * ((values.filter isPresent).filter
        (fun v => matchesDatePattern (jsToString v))).length) :
    detectColumnType values =
      (if (values.filter isPresent).any
          (fun v => strHasChar (jsToString v) ':')
        then ColumnType.datetime else ColumnType.date) := by
  have hne := length_ne_zero_of_ne_nil h0
  have hbne := filter_length_ne_of_mem_not hb
  have hnne := filter_length_ne_of_mem_not hn
  unfold detectColumnType
  rw [if_neg hne, if_neg hbne, if_neg hnne, if_pos hd]

/-- Witness for the amended C1: a colon-free column of five dates and one
plain string outlier is classified date. -/
theorem detectColumnType_date_branch_amended_witness :
    detectColumnType
      [JSValue.jstr "2020-01-01", JSValue.jstr "2020-01-02",
       JSValue.jstr "2020-01-03", JSValue.jstr "2020-01-04",
       JSValue.jstr "2020-01-05", JSValue.jstr "abc"] =
      (if ([JSValue.jstr "2020-01-01", JSValue.jstr "2020-01-02",
            JSValue.jstr "2020-01-03", JSValue.jstr "2020-01-04",
            JSValue.jstr "2020-01-05",
            JSValue.jstr "abc"].filter isPresent).any
          (fun v => strHasChar (jsToString v) ':')
        then ColumnType.datetime else ColumnType.date) :=
  detectColumnType_date_branch_amended _ (by decide) (by decide) (by decide)
    (by decide)

/-- A parsed row: a JavaScript object mapping column names to values, as an
association list in key order.  Object keys are unique in JavaScript; where a
statement needs that fact it carries a Nodup hypothesis. -/
def Row : Type := List (String × JSValue)

instance : DecidableEq Row := by
  unfold Row
  infer_instance

/-- row[name] in JavaScript: the stored value, or undefined when the key is
absent. -/
def rowGet (r : Row) (name : String) : JSValue :=
  match r.find? (fun p => p.1 == name) with
  | some p => p.2
  | none => JSValue.jundef

/-- SAMPLE_SIZE of useFileUpload.ts. -/
def SAMPLE_SIZE : Nat := 5

/-- Column of types/index.ts, the per-column profile (the optional stats
field is never set by this pipeline and is omitted). -/
structure Column where
  name : String
  type : ColumnType
  nullable : Bool
  unique : Nat
  missing : Nat
  sample : List JSValue
deriving DecidableEq, Repr

/-- Body of the columnNames.map closure of analyzeColumns: the profile of
one column.  values, nonNullCount and the Set over values.map(String) are
inlined; the Set size is the dedup length over the string coercions of ALL
values of the column, nulls included, exactly as in the source. -/
def analyzeColumn (data : List Row) (name : String) : Column :=
  { name := name
    type := detectColumnType (data.map (fun row => rowGet row name))
    nullable := ((data.map (fun row => rowGet row name)).filter
        isPresent).length < (data.map (fun row => rowGet row name)).length
    unique := ((data.map (fun row => rowGet row name)).map jsToString).dedup.length
    missing := (data.map (fun row => rowGet row name)).length -
      ((data.map (fun row => rowGet row name)).filter isPresent).length
    sample := (data.map (fun row => rowGet row name)).take SAMPLE_SIZE }

/-- analyzeColumns of useFileUpload.ts: the empty row list yields no columns;
otherwise one profile per key of the first row (Object.keys(data[0])). -/
def analyzeColumns (data : List Row) : List Column :=
  match data with
  | [] => []
  | first :: rest =>
    (first.map Prod.fst).map (fun name => analyzeColumn (first :: rest) name)

/-- The three parsed rows of the spec scenario CSV
name,age / Alice,30 / Bob,(blank) / Carol,25: the blank age field reaches the
analyzer as null. -/
def scenarioRows : List Row :=
  [[("name", JSValue.jstr "Alice"), ("age", JSValue.jnum 30)],
   [("name", JSValue.jstr "Bob"), ("age", JSValue.jnull)],
   [("name", JSValue.jstr "Carol"), ("age", JSValue.jnum 25)]]

/-- Follows the wording of claim C2 rather than the source: the count of
distinct string-coerced values among the non-null, non-empty values only,
with null, undefined and the empty string excluded from the uniqueness set. -/
def claimedUniqueCount (values : List JSValue) : Nat :=
  ((values.filter isPresent).map jsToString).dedup.length

/-- Counterexample to C2 as stated: on the scenario CSV the age column's
unique field is 3, because the source counts distinct string coercions of
ALL values and String(null) = "null" enters the set, while the claim's
null-excluding count is 2. -/
theorem analyzeColumns_unique_nulls_cex :
    ((analyzeColumns scenarioRows).map (fun c => (c.name, c.unique))) =
      [("name", 3), ("age", 3)] ∧
    claimedUniqueCount (scenarioRows.map (fun row => rowGet row "age")) = 2 ∧
    (3 : Nat) ≠ 2 := by decide

/-- C2 amended: the unique field of every profile produced by analyzeColumns
counts the distinct string-coerced values among ALL of the column's values,
with null, undefined and empty strings contributing their coercions "null",
"undefined" and "" to the uniqueness set. -/
theorem analyzeColumns_unique_amended (data : List Row) (col : Column)
    (hmem : col ∈ analyzeColumns data) :
    col.unique =
      ((data.map (fun row => rowGet row col.name)).map
        jsToString).toFinset.card := by
  cases data with
  | nil => simp [analyzeColumns] at hmem
  | cons first rest =>
    have hmem2 : col ∈ (first.map Prod.fst).map
        (fun name => analyzeColumn (first :: rest) name) := hmem
    obtain ⟨name, hname, rfl⟩ := List.mem_map.mp hmem2
    simp only [analyzeColumn]
    rw [List.card_toFinset]

/-- Witness for the amended C2: the age profile of the scenario CSV is a
column of analyzeColumns and its unique field is the distinct count over all
three coerced values "30", "null", "25". -/
theorem analyzeColumns_unique_amended_witness :
    (analyzeColumn scenarioRows "age") ∈ analyzeColumns scenarioRows ∧
    (analyzeColumn scenarioRows "age").unique =
      ((scenarioRows.map (fun row =>
          rowGet row (analyzeColumn scenarioRows "age").name)).map
        jsToString).toFinset.card :=
  ⟨by decide, analyzeColumns_unique_amended scenarioRows _ (by decide)⟩

/-- MAX_FILE_SIZE of useFileUpload.ts: 50 * 1024 * 1024 bytes. -/
def MAX_FILE_SIZE : Nat := 50 * 1024 * 1024

/-- ALLOWED_EXTENSIONS of useFileUpload.ts. -/
def ALLOWED_EXTENSIONS : List String := [".csv", ".xlsx", ".xls"]

/-- formatFileSize (lib/utils.ts) evaluated at MAX_FILE_SIZE, the only point
where validateFile uses it: Math.floor(log(52428800)/log(1024)) = 2, and
parseFloat((52428800 / 1024 ^ 2).toFixed(2)) = 50, giving "50 MB". -/
def maxFileSizeLabel : String := "50 MB"

/-- The File fields the pipeline reads: declared name and byte size. -/
structure FileInfo where
  name : String
  size : Nat
deriving DecidableEq, Repr

/-- Result record of validateFile; the error field models the optional
error property of the source's { valid, error? } object. -/
structure ValidationResult where
  valid : Bool
  error : Option String
deriving DecidableEq, Repr

/-- JavaScript name.split(".") modelled on the character list: splitting on
a single-character separator, where the empty string splits to [""]. -/
def splitOnDot : List Char → List (List Char)
  | [] => [[]]
  | c :: rest =>
    let r := splitOnDot rest
    if c = '.' then [] :: r
    else
      match r with
      | [] => [[c]]
      | h :: t => (c :: h) :: t

/-- The extension computed by validateFile:
"." + file.name.split(".").pop().toLowerCase().  pop() of a split result is
its last component (split always yields at least one component); toLowerCase
is modelled per character by Char.toLower. -/
def computedExt (name : String) : String :=
  String.mk ('.' :: ((splitOnDot name.data).getLastD []).map Char.toLower)

/-- validateFile of useFileUpload.ts: reject files over MAX_FILE_SIZE, then
reject computed extensions outside ALLOWED_EXTENSIONS, else pass. -/
def validateFile (file : FileInfo) : ValidationResult :=
  if MAX_FILE_SIZE < file.size then
    { valid := false
      error := some ("File too large. Maximum size is " ++ maxFileSizeLabel) }
  else if computedExt file.name ∈ ALLOWED_EXTENSIONS then
    { valid := true, error := none }
  else
    { valid := false
      error := some ("Invalid file type. Allowed: " ++
        String.intercalate ", " ALLOWED_EXTENSIONS) }

/-- file.name.replace(/\.[^/.]+$/, "") used for the dataset display name: a
trailing dot-extension is dropped when it is nonempty and free of '/' and
'.', which for the part after the last dot leaves only the '/' check. -/
def stripExt (name : String) : String :=
  let parts := splitOnDot name.data
  let last := parts.getLastD []
  if 2 ≤ parts.length ∧ last ≠ [] ∧ last.contains '/' = false then
    String.intercalate "." ((parts.dropLast).map (fun cs => String.mk cs))
  else name

/-- Dataset of types/index.ts, assembled by a successful upload. -/
structure Dataset where
  id : String
  name : String
  filename : String
  size : Nat
  rowCount : Nat
  columnCount : Nat
  columns : List Column
  createdAt : String
  updatedAt : String
deriving DecidableEq, Repr

/-- UploadStatus of types/index.ts. -/
inductive UploadPhase where
  | idle
  | uploading
  | parsing
  | analyzing
  | complete
  | error
deriving DecidableEq, Repr

/-- The slice of useDataStore state that the upload pipeline touches. -/
structure StoreState where
  dataset : Option Dataset
  rawData : Option (List Row)
  uploadStatus : UploadPhase
  uploadProgress : Nat
  uploadError : Option String
deriving DecidableEq

/-- initialState of useDataStore.ts, restricted to the upload slice. -/
def initialState : StoreState :=
  { dataset := none
    rawData := none
    uploadStatus := UploadPhase.idle
    uploadProgress := 0
    uploadError := none }

/-- setUploadError of useDataStore.ts: stores the message and forces the
status to error, touching nothing else. -/
def setUploadError (s : StoreState) (e : Option String) : StoreState :=
  { s with uploadError := e, uploadStatus := UploadPhase.error }

/-- Outcome of one upload call: the resulting store state, plus whether the
parse step was reached (used to state that validation short-circuits). -/
structure UploadResult where
  state : StoreState
  parseAttempted : Bool
deriving DecidableEq

/-- upload of useFileUpload.ts as a pure transition.  The asynchronous parse
of the file (parseCSV or parseExcel) is abstracted as the parseResult
argument: the row list it resolves with, or the message of the error it
rejects with; freshId and now stand for the impure generateId and Date
calls.  On a validation failure the source returns before any parse, only
calling setUploadError.  Inside the try block the source sets status
uploading/progress 10 and then parsing/progress 30 before awaiting the
parse, so every failure thrown from the parse step onward is caught with at
least those fields updated; the intermediate progress values 60 and 80 and
the analyzing status of the success path are overwritten by the final
complete/100 updates and the model records the resulting state. -/
def upload (s : StoreState) (file : FileInfo) (freshId now : String)
    (parseResult : Except String (List Row)) : UploadResult :=
  if (validateFile file).valid = false then
    { state := setUploadError s
        (some ((validateFile file).error.getD "Invalid file"))
      parseAttempted := false }
  else
    match parseResult with
    | Except.error msg =>
      { state := setUploadError
          { s with uploadStatus := UploadPhase.parsing, uploadProgress := 30 }
          (some msg)
        parseAttempted := true }
    | Except.ok rows =>
      if rows.length = 0 then
        { state := setUploadError
            { s with uploadStatus := UploadPhase.parsing,
                     uploadProgress := 30 }
            (some "File is empty or has no valid data")
          parseAttempted := true }
      else
        { state :=
            { s with
              uploadStatus := UploadPhase.complete
              uploadProgress := 100
              dataset := some
                { id := freshId
                  name := stripExt file.name
                  filename := file.name
                  size := file.size
                  rowCount := rows.length
                  columnCount := (analyzeColumns rows).length
                  columns := analyzeColumns rows
                  createdAt := now
                  updatedAt := now }
              rawData := some rows }
          parseAttempted := true }

/-- Follows the wording of claim C8 rather than the source: a file name only
has an extension when it contains a dot, and the lowercased extension (with
its dot) must be one of the allowed three. -/
def claimedExtensionOk (name : String) : Bool :=
  name.data.contains '.' && ALLOWED_EXTENSIONS.contains (computedExt name)

/-- Counterexample to C8 as stated: the dot-free file name "csv" has no
extension, yet validateFile passes it, because split(".").pop() of a dot-free
name returns the whole name and "." + "csv" is an allowed extension. -/
theorem validateFile_dotfree_name_cex :
    (validateFile { name := "csv", size := 10 }).valid = true ∧
    claimedExtensionOk "csv" = false ∧
    10 ≤ MAX_FILE_SIZE := by decide

/-- C8 amended: validateFile passes exactly when the size is at most
MAX_FILE_SIZE and the computed extension, a dot prepended to the lowercased
last dot-separated component of the name (the whole name when it has no
dot), is allowed; every failing result carries an error message. -/
theorem validateFile_amended (f : FileInfo) :
    ((validateFile f).valid = true ↔
      (f.size ≤ MAX_FILE_SIZE ∧ computedExt f.name ∈ ALLOWED_EXTENSIONS)) ∧
    ((validateFile f).error.isSome = true ↔ (validateFile f).valid = false) := by
  unfold validateFile
  by_cases h1 : MAX_FILE_SIZE < f.size
  · rw [if_pos h1]
    exact ⟨⟨fun h => Bool.noConfusion h, fun h => absurd h1 (Nat.not_lt.mpr h.1)⟩,
      ⟨fun _ => rfl, fun _ => rfl⟩⟩
  · rw [if_neg h1]
    by_cases h2 : computedExt f.name ∈ ALLOWED_EXTENSIONS
    · rw [if_pos h2]
      exact ⟨⟨fun _ => ⟨Nat.not_lt.mp h1, h2⟩, fun _ => rfl⟩,
        ⟨fun h => Bool.noConfusion h, fun h => Bool.noConfusion h⟩⟩
    · rw [if_neg h2]
      exact ⟨⟨fun h => Bool.noConfusion h, fun h => absurd h.2 h2⟩,
        ⟨fun _ => rfl, fun _ => rfl⟩⟩

/-- Witness for the amended C8: an uppercase .XLSX file of 4096 bytes
passes validation. -/
theorem validateFile_amended_witness :
    (validateFile { name := "report.XLSX", size := 4096 }).valid = true :=
  ((validateFile_amended { name := "report.XLSX", size := 4096 }).1).mpr
    (by decide)

/-- Counterexample to C6 as stated: the message the pipeline stores for a
zero-row parse is "File is empty or has no valid data" with a capital F, not
the claimed all-lowercase string. -/
theorem upload_empty_message_case_cex :
    (upload initialState { name := "data.csv", size := 100 } "id" "now"
        (Except.ok [])).state.uploadError =
      some "File is empty or has no valid data" ∧
    "File is empty or has no valid data" ≠
      "file is empty or has no valid data" := by decide

/-- C6 amended: a validated upload whose parse step resolves with zero rows
fails with the stored error message "File is empty or has no valid data",
ends in the error status, and leaves the previously stored dataset and raw
rows untouched, so no zero-row Dataset is ever produced. -/
theorem upload_empty_parse_amended (s : StoreState) (f : FileInfo)
    (i t : String) (hv : (validateFile f).valid = true) :
    (upload s f i t (Except.ok [])).state.uploadError =
      some "File is empty or has no valid data" ∧
    (upload s f i t (Except.ok [])).state.uploadStatus = UploadPhase.error ∧
    (upload s f i t (Except.ok [])).state.dataset = s.dataset ∧
    (upload s f i t (Except.ok [])).state.rawData = s.rawData := by
  have hv2 : ¬((validateFile f).valid = false) := by simp [hv]
  unfold upload
  rw [if_neg hv2]
  exact ⟨rfl, rfl, rfl, rfl⟩

/-- Witness for the amended C6: uploading a header-only data.csv over the
initial store leaves no dataset and records the capital-F message. -/
theorem upload_empty_parse_amended_witness :
    (upload initialState { name := "data.csv", size := 100 } "i" "t"
        (Except.ok [])).state.uploadError =
      some "File is empty or has no valid data" ∧
    (upload initialState { name := "data.csv", size := 100 } "i" "t"
        (Except.ok [])).state.uploadStatus = UploadPhase.error ∧
    (upload initialState { name := "data.csv", size := 100 } "i" "t"
        (Except.ok [])).state.dataset = initialState.dataset ∧
    (upload initialState { name := "data.csv", size := 100 } "i" "t"
        (Except.ok [])).state.rawData = initialState.rawData :=
  upload_empty_parse_amended initialState
    { name := "data.csv", size := 100 } "i" "t" (by decide)

/-- C7: the Dataset assembled by a successful upload satisfies
columnCount = length of its column profiles, rowCount = number of parsed
rows, and columnCount = number of distinct keys of the first parsed row
(keys of a JavaScript object are distinct, the Nodup hypothesis). -/
theorem upload_dataset_counts (s : StoreState) (f : FileInfo) (i t : String)
    (r : Row) (rest : List Row)
    (hv : (validateFile f).valid = true)
    (hnd : (r.map Prod.fst).Nodup) :
    ∃ d, (upload s f i t (Except.ok (r :: rest))).state.dataset = some d ∧
      d.columnCount = d.columns.length ∧
      d.rowCount = (r :: rest).length ∧
      d.columnCount = (r.map Prod.fst).dedup.length := by
  have hv2 : ¬((validateFile f).valid = false) := by simp [hv]
  unfold upload
  rw [if_neg hv2]
  refine ⟨_, rfl, rfl, rfl, ?_⟩
  rw [List.dedup_eq_self.mpr hnd]
  simp [analyzeColumns]

/-- Witness for C7: a one-row one-column upload stores a dataset with
matching counts. -/
theorem upload_dataset_counts_witness :
    ∃ d, (upload initialState { name := "t.csv", size := 10 } "i" "t"
        (Except.ok [[("a", JSValue.jnum 1)]])).state.dataset = some d ∧
      d.columnCount = d.columns.length ∧
      d.rowCount = ([[("a", JSValue.jnum 1)]] : List Row).length ∧
      d.columnCount = ((([("a", JSValue.jnum 1)] : Row)).map Prod.fst).dedup.length :=
  upload_dataset_counts initialState { name := "t.csv", size := 10 } "i" "t"
    [("a", JSValue.jnum 1)] [] (by decide) (by decide)

/-- C9: a failed upload, whether it failed validation or parsing or the
empty-result check, never changes the stored dataset or raw rows, and a
validation failure returns before the parse step is reached. -/
theorem upload_failure_preserves_state (s : StoreState) (f : FileInfo)
    (i t : String) (pr : Except String (List Row)) :
    ((upload s f i t pr).state.uploadStatus = UploadPhase.error →
      (upload s f i t pr).state.dataset = s.dataset ∧
      (upload s f i t pr).state.rawData = s.rawData) ∧
    ((validateFile f).valid = false →
      (upload s f i t pr).parseAttempted = false) := by
  unfold upload
  by_cases hv : (validateFile f).valid = false
  · rw [if_pos hv]
    exact ⟨fun _ => ⟨rfl, rfl⟩, fun _ => rfl⟩
  · rw [if_neg hv]
    cases pr with
    | error msg =>
      exact ⟨fun _ => ⟨rfl, rfl⟩, fun h => absurd h hv⟩
    | ok rows =>
      cases rows with
      | nil =>
        exact ⟨fun _ => ⟨rfl, rfl⟩, fun h => absurd h hv⟩
      | cons r rest =>
        exact ⟨fun hc =>
          UploadPhase.noConfusion
            (hc : UploadPhase.complete = UploadPhase.error),
          fun h => absurd h hv⟩

/-- The oversized file of the C9 scenario: one byte past the limit. -/
def oversizedFile : FileInfo := { name := "big.csv", size := MAX_FILE_SIZE + 1 }

/-- Witness for C9: a 50 MiB + 1 byte file fails validation and the parse
step is never reached. -/
theorem upload_failure_preserves_state_witness :
    (validateFile oversizedFile).valid = false ∧
    (upload initialState oversizedFile "i" "t"
        (Except.ok [[("a", JSValue.jnum 1)]])).parseAttempted = false :=
  ⟨by decide,
   (upload_failure_preserves_state initialState oversizedFile "i" "t"
      (Except.ok [[("a", JSValue.jnum 1)]])).2 (by decide)⟩


end AiDataAnalyst
